import Mathlib

/-!
Verification of the CHAI3D "11-effects" demo (`src/commSome.cpp`).

The file shallowly embeds the parts of the program the claims are about:

* the per-iteration force model of the haptics loop `renderHaptics`
  (object0 damping stage, object3 oscillation stage, object2 spring-mass
  stage, one force sent to the device per iteration);
* the scene construction and haptic-effect creation in `main`;
* the interleaving of the haptics thread with the shutdown routine
  `close` through the shared booleans `simulationRunning` and
  `simulationFinished`;
* the GLFW key callback `onKeyCallback` and the main graphic loop guard.

C++ `double` arithmetic is embedded as real arithmetic; `cVector3d` as a
record of three reals with the componentwise operations and the Euclidean
length used by the code.
-/

namespace CommSome

/-- A 3-component vector, embedding `cVector3d`. -/
structure Vec3 where
  x : ℝ
  y : ℝ
  z : ℝ

/-- Componentwise vector addition (`cVector3d::operator+` / `add`). -/
def vadd (a b : Vec3) : Vec3 := ⟨a.x + b.x, a.y + b.y, a.z + b.z⟩

/-- Componentwise vector subtraction (`cVector3d::operator-`). -/
def vsub (a b : Vec3) : Vec3 := ⟨a.x - b.x, a.y - b.y, a.z - b.z⟩

/-- Vector negation (unary `operator-`). -/
def vneg (a : Vec3) : Vec3 := ⟨-a.x, -a.y, -a.z⟩

/-- Scalar multiplication (`double * cVector3d`, `operator*=`). -/
def vsmul (c : ℝ) (a : Vec3) : Vec3 := ⟨c * a.x, c * a.y, c * a.z⟩

/-- Division of a vector by a scalar (`cVector3d::operator/`). -/
noncomputable def vdiv (a : Vec3) (c : ℝ) : Vec3 := ⟨a.x / c, a.y / c, a.z / c⟩

/-- Euclidean dot product. -/
def vdot (a b : Vec3) : ℝ := a.x * b.x + a.y * b.y + a.z * b.z

/-- Euclidean length (`cVector3d::length`). -/
noncomputable def vlength (a : Vec3) : ℝ := Real.sqrt (a.x ^ 2 + a.y ^ 2 + a.z ^ 2)

/-- The zero vector (`cVector3d(0,0,0)`, `set(0,0,0)`). -/
def vzero : Vec3 := ⟨0, 0, 0⟩

/-! Numeric constants of the demo, taken from `main` and `renderHaptics`. -/

/-- Radius of `object0` (`new cShapeSphere(0.5)`). -/
def object0Radius : ℝ := 0.5

/-- Radius of `object2` (`new cShapeSphere(0.3)`). -/
def object2Radius : ℝ := 0.3

/-- Radius of `object3` (`new cShapeSphere(0.5)`). -/
def object3Radius : ℝ := 0.5

/-- Global position of `object0` (`object0->setLocalPos(0.0, -1.2, 0.0)`,
child of the world, which sits at the origin). -/
def object0Pos : Vec3 := ⟨0, -1.2, 0⟩

/-- Global position of `object3` (`object3->setLocalPos(0, 0.0, 0)`). -/
def object3Pos : Vec3 := ⟨0, 0, 0⟩

/-- `object2StartPos` in `renderHaptics`: `cVector3d(0.0, 1.0, 0.0)`. -/
def object2StartPos : Vec3 := ⟨0, 1, 0⟩

/-- `double timeStep = 0.001` in `renderHaptics`. -/
def timeStep : ℝ := 0.001

/-- `double freq = 6.0` in `renderHaptics`. -/
def oscFreq : ℝ := 6

/-- `double amp = 6.0` in `renderHaptics`. -/
def oscAmp : ℝ := 6

/-- `double mass = 0.5` in `renderHaptics`. -/
def object2Mass : ℝ := 0.5

/-- `double damping = 0.0` in `renderHaptics`. -/
def object2Damping : ℝ := 0

/-- The constant the code uses for π: literal `3.14159` at the
oscillation formula of the object3 stage. -/
def piApprox : ℝ := 3.14159

/-! The per-iteration inputs the loop body reads from the engine and the
device: the tool device position, its linear velocity, and the
interaction force computed by `tool->computeInteractionForces()`. -/

/-- External readings consumed by one iteration of the haptics loop. -/
structure HapticInput where
  toolPos : Vec3
  toolVel : Vec3
  engineForce : Vec3

/-- The loop-carried state of `renderHaptics`: the object3 oscillation
timer `oscTime3`, the hysteresis flag `inLoop`, and object2's local
position and velocity. -/
structure SimState where
  oscTime3 : ℝ
  inLoop : Bool
  object2Pos : Vec3
  object2Vel : Vec3

/-- Distance from a point to the tool device position
(`(objPos - toolPos).length()`). -/
noncomputable def toolDist (inp : HapticInput) (p : Vec3) : ℝ :=
  vlength (vsub p inp.toolPos)

/-- The object0 block of the loop body: if the tool is within
`0.05 + object0->getRadius()` of object0, add `Kv * linearVelocity`
(`Kv = 0.1`) to the force and scale the force by 4; otherwise leave the
force unchanged. -/
noncomputable def object0Stage (inp : HapticInput) (force : Vec3) : Vec3 :=
  let dist := toolDist inp object0Pos
  let radiusSum := 0.05 + object0Radius
  if dist < radiusSum then
    vsmul 4 (vadd force (vsmul 0.1 inp.toolVel))
  else
    force

/-- The object3 block of the loop body: the threshold is
`0.05 + radius * 2` when `inLoop` holds and `0.05 + radius` otherwise;
inside it the timer advances by `timeStep` and
`(-amp*cos(2*3.14159*freq*t), amp*sin(...), amp*cos(...))` is added to
the force with `inLoop` set; outside it the timer resets to 0 and
`inLoop` is cleared.  Returns (force, oscTime3, inLoop). -/
noncomputable def object3Stage (inp : HapticInput) (force : Vec3)
    (oscTime3 : ℝ) (inLoop : Bool) : Vec3 × ℝ × Bool :=
  let dist := toolDist inp object3Pos
  let radiusSum := if inLoop then 0.05 + object3Radius * 2 else 0.05 + object3Radius
  if dist < radiusSum then
    let t := oscTime3 + timeStep
    let f := oscAmp * Real.sin (2 * piApprox * oscFreq * t)
    let f2 := oscAmp * Real.cos (2 * piApprox * oscFreq * t)
    (vadd force ⟨-f2, f, f2⟩, t, true)
  else
    (force, 0, false)

/-- The update half of the object2 block: within `0.03 + radius` of
object2 the velocity gains the explicit-Euler increment
`((-baseForce - damping*vel)/mass) * timeStep` and the force is scaled
by 10; in either case the position then advances by `vel * timeStep`
and the velocity is scaled by 0.999.  Returns (force, pos, vel). -/
noncomputable def object2Update (inp : HapticInput) (force pos vel : Vec3) :
    Vec3 × Vec3 × Vec3 :=
  let dist := toolDist inp pos
  let radiusSum := 0.03 + object2Radius
  let vel1 :=
    if dist < radiusSum then
      vadd vel (vsmul timeStep (vdiv (vsub (vneg force) (vsmul object2Damping vel)) object2Mass))
    else vel
  let force1 := if dist < radiusSum then vsmul 10 force else force
  (force1, vadd pos (vsmul timeStep vel1), vsmul 0.999 vel1)

/-- The tail of the object2 block: when the position has drifted farther
than 1.0 from `object2StartPos`, reset the velocity to zero and the
position to the start. -/
noncomputable def object2Clamp (pos vel : Vec3) : Vec3 × Vec3 :=
  if vlength (vsub pos object2StartPos) > 1.0 then (object2StartPos, vzero)
  else (pos, vel)

/-- The full object2 block: the update followed by the reset check. -/
noncomputable def object2Stage (inp : HapticInput) (force pos vel : Vec3) :
    Vec3 × Vec3 × Vec3 :=
  let r := object2Update inp force pos vel
  let pv := object2Clamp r.2.1 r.2.2
  (r.1, pv.1, pv.2)

/-- One iteration of the haptics loop body: start from the engine
interaction force, run the object0, object3 and object2 blocks in source
order, and return the new state together with the single force vector
passed to `setDeviceGlobalForce` / `applyToDevice`. -/
noncomputable def hapticsIteration (inp : HapticInput) (s : SimState) :
    SimState × Vec3 :=
  let force1 := object0Stage inp inp.engineForce
  let r3 := object3Stage inp force1 s.oscTime3 s.inLoop
  let r2 := object2Stage inp r3.1 s.object2Pos s.object2Vel
  (⟨r3.2.1, r3.2.2, r2.2.1, r2.2.2⟩, r2.1)

/-- The haptics loop run over a finite stream of per-iteration inputs:
returns the final state and the list of forces sent to the device, one
per iteration. -/
noncomputable def hapticsRun : List HapticInput → SimState → SimState × List Vec3
  | [], s => (s, [])
  | inp :: rest, s =>
    let r := hapticsIteration inp s
    let r' := hapticsRun rest r.1
    (r'.1, r.2 :: r'.2)

/-- The state of the loop-carried variables when `renderHaptics` enters
its loop: timers at zero, `inLoop` false, object2 at its start with zero
velocity. -/
def initSimState : SimState := ⟨0, false, object2StartPos, vzero⟩

/-! ## Scene construction (`main`)

The scene-graph children of `world` in the order the initialization code
adds them.  `object1`'s `world->addChild(object1)` line is commented out
in the source, so `object1` never becomes a child of the world. -/

/-- The scene-graph nodes the initialization code constructs. -/
inductive SceneObj
  | camera
  | light
  | tool
  | object0
  | object1
  | object2
  | object3
deriving DecidableEq, Repr

/-- The children `main` adds to `world`, in source order:
`camera`, `light`, `tool`, `object0`, `object2`, `object3`. -/
def worldChildren : List SceneObj :=
  [.camera, .light, .tool, .object0, .object2, .object3]

/-- The four sphere objects the initialization code constructs. -/
def sphereObjects : List SceneObj :=
  [.object0, .object1, .object2, .object3]

/-! ## Haptic effect creation and material parameters (`main`) -/

/-- The kinds of engine haptic effects the demo creates
(`createEffectSurface`, `createEffectViscosity`,
`createEffectStickSlip`, `createEffectVibration`). -/
inductive EffectKind
  | surface
  | viscosity
  | stickSlip
  | vibration
deriving DecidableEq, Repr

/-- The `createEffect...` calls of the initialization code, in source
order: surface on object0; viscosity on object1; stick-slip on object2;
vibration, surface and viscosity on object3. -/
def effectCreations : List (SceneObj × EffectKind) :=
  [(.object0, .surface),
   (.object1, .viscosity),
   (.object2, .stickSlip),
   (.object3, .vibration),
   (.object3, .surface),
   (.object3, .viscosity)]

/-- The haptic material parameters the initialization code sets. -/
inductive MatParam
  | viscosity
  | stickSlipForceMax
  | stickSlipStiffness
  | vibrationFrequency
  | vibrationAmplitude
  | stiffness
deriving DecidableEq, Repr

/-- A value assigned to a material parameter: either a plain constant or
a multiple of one of the device limits `maxLinearForce`, `maxStiffness`,
`maxDamping` computed from `hapticDeviceInfo`. -/
inductive ParamValue
  | constV (q : ℚ)
  | mulMaxForce (q : ℚ)
  | mulMaxStiffness (q : ℚ)
  | mulMaxDamping (q : ℚ)
deriving DecidableEq, Repr

/-- Whether a parameter value is derived from one of the device limits. -/
def usesDeviceLimit : ParamValue → Bool
  | .constV _ => false
  | _ => true

/-- The (uncommented) haptic material parameter assignments of the
initialization code, in source order. -/
def materialAssignments : List (SceneObj × MatParam × ParamValue) :=
  [(.object1, .viscosity, .mulMaxDamping (9 / 10)),
   (.object2, .stickSlipForceMax, .mulMaxForce (1 / 5)),
   (.object2, .stickSlipStiffness, .mulMaxStiffness (3 / 5)),
   (.object3, .vibrationFrequency, .constV 60),
   (.object3, .vibrationAmplitude, .mulMaxForce (1 / 2)),
   (.object3, .stiffness, .constV (1 / 10))]

/-! ## Shutdown interleaving (`close` and `renderHaptics`)

The haptics thread and the main thread's shutdown routine `close`
communicate through the plain booleans `simulationRunning` and
`simulationFinished`.  We model the two control flows as program
counters over a shared state and interleave them with an explicit
schedule (a list of booleans: `true` schedules the haptics thread,
`false` the main thread).  `cSleepMs(100)` is a stutter step.  The
history field `bodyAfterStop` records whether a loop-body step ever
executed after `tool->stop()` had run. -/

/-- Program counter of the haptics thread `renderHaptics`:
set `simulationRunning = true`; set `simulationFinished = false`;
test the loop guard; run the loop body; set `simulationFinished = true`;
return. -/
inductive HPC
  | setRun
  | clearFin
  | guard
  | body
  | setFin
  | done
deriving DecidableEq, Repr, Fintype

/-- Program counter of the main thread inside `close`:
set `simulationRunning = false`; poll `simulationFinished` (sleeping
100 ms between polls); `tool->stop()`; delete resources; return. -/
inductive MPC
  | clearRun
  | wait
  | stopTool
  | cleanup
  | done
deriving DecidableEq, Repr, Fintype

/-- Shared state of the two threads. -/
structure CState where
  running : Bool
  finished : Bool
  hpc : HPC
  mpc : MPC
  toolStopped : Bool
  bodyAfterStop : Bool
deriving DecidableEq, Repr, Fintype

/-- One step of the haptics thread. -/
def hstep (s : CState) : CState :=
  match s.hpc with
  | .setRun => { s with running := true, hpc := .clearFin }
  | .clearFin => { s with finished := false, hpc := .guard }
  | .guard => if s.running then { s with hpc := .body } else { s with hpc := .setFin }
  | .body => { s with hpc := .guard, bodyAfterStop := s.bodyAfterStop || s.toolStopped }
  | .setFin => { s with finished := true, hpc := .done }
  | .done => s

/-- One step of the main thread running `close`. -/
def mstep (s : CState) : CState :=
  match s.mpc with
  | .clearRun => { s with running := false, mpc := .wait }
  | .wait => if s.finished then { s with mpc := .stopTool } else s
  | .stopTool => { s with toolStopped := true, mpc := .cleanup }
  | .cleanup => { s with mpc := .done }
  | .done => s

/-- Run the interleaving under a schedule: `true` steps the haptics
thread, `false` steps the main thread. -/
def crun (s : CState) : List Bool → CState
  | [] => s
  | c :: cs => crun (if c then hstep s else mstep s) cs

/-- The program state at the moment `close` may first run: the globals
are initialized to `simulationRunning = false`,
`simulationFinished = true`; the haptics thread has been created but may
not have executed a statement yet; the tool is started. -/
def cInit : CState :=
  { running := false, finished := true, hpc := .setRun, mpc := .clearRun,
    toolStopped := false, bodyAfterStop := false }

/-- Inductive invariant of the shutdown interleaving for runs that begin
after the haptics thread's prologue: no loop-body step has executed
after `tool->stop()`; `simulationFinished` is only set once the haptics
thread is done; the main thread reaches `tool->stop()` (and beyond) only
once the haptics thread is done; and the haptics thread is past its
prologue. -/
def cInv (s : CState) : Bool :=
  !s.bodyAfterStop &&
  (!s.finished || s.hpc == HPC.done) &&
  (!(s.mpc == MPC.stopTool || s.mpc == MPC.cleanup || s.mpc == MPC.done) || s.hpc == HPC.done) &&
  (!s.toolStopped || s.hpc == HPC.done) &&
  (s.hpc == HPC.guard || s.hpc == HPC.body || s.hpc == HPC.setFin || s.hpc == HPC.done)

/-! ## Key callback and main graphic loop (`onKeyCallback`, `main`) -/

/-- GLFW key actions. -/
inductive KeyAction
  | press
  | release
  | keyRepeat
deriving DecidableEq, Repr

/-- The keys the callback distinguishes. -/
inductive Key
  | escape
  | q
  | f
  | m
  | other
deriving DecidableEq, Repr

/-- The program state the key callback can touch: the `fullscreen` and
`mirroredDisplay` globals, the camera's vertical-mirror setting, whether
the window is in fullscreen (monitor) mode, and the GLFW
window-should-close flag. -/
structure AppState where
  fullscreen : Bool
  mirroredDisplay : Bool
  cameraMirror : Bool
  windowMonitorMode : Bool
  shouldClose : Bool
deriving DecidableEq, Repr

/-- `onKeyCallback`: ignore any action other than press and repeat;
Escape or Q requests window close; F toggles fullscreen and moves the
window onto or off the monitor; M toggles vertical mirroring on the
camera. -/
def onKeyCallback (key : Key) (action : KeyAction) (s : AppState) : AppState :=
  if action ≠ .press ∧ action ≠ .keyRepeat then
    s
  else if key = .escape ∨ key = .q then
    { s with shouldClose := true }
  else if key = .f then
    let fs := !s.fullscreen
    { s with fullscreen := fs, windowMonitorMode := fs }
  else if key = .m then
    let md := !s.mirroredDisplay
    { s with mirroredDisplay := md, cameraMirror := md }
  else
    s

/-- The main graphic loop `while (!glfwWindowShouldClose(window))`,
with fuel: counts how many more frames are rendered. -/
def graphicsLoopFrames : Nat → AppState → Nat
  | 0, _ => 0
  | n + 1, s => if s.shouldClose then 0 else 1 + graphicsLoopFrames n s

end CommSome

open CommSome

/-! ## Theorems -/

/-- C5 (counterexample): it is not the case that every sphere object the
initialization code constructs is added as a child of the world:
`object1`'s `addChild` call is commented out. -/
theorem c5_counterexample_object1_missing :
    ¬ (∀ o ∈ sphereObjects, o ∈ worldChildren) := by
  decide

/-- C5 (amended): the initialization code adds `object0`, `object2` and
`object3` as children of the world, but never adds `object1`, so the
scene contains three of the four spheres. -/
theorem c5_amended_three_spheres_in_world :
    SceneObj.object0 ∈ worldChildren ∧ SceneObj.object2 ∈ worldChildren ∧
    SceneObj.object3 ∈ worldChildren ∧ SceneObj.object1 ∉ worldChildren := by
  decide

/-- C6 (counterexample): it is not the case that every created haptic
effect sits on an object with some material parameter derived from the
device's force/stiffness/damping limits: `object0` receives a surface
effect but no haptic material parameter at all (they are commented
out). -/
theorem c6_counterexample_object0_unparameterized :
    ¬ (∀ e ∈ effectCreations, ∃ a ∈ materialAssignments,
        a.1 = e.1 ∧ usesDeviceLimit a.2.2 = true) := by
  intro h
  obtain ⟨a, ha, h1, _⟩ := h (SceneObj.object0, EffectKind.surface) (by simp [effectCreations])
  fin_cases ha <;> simp_all

/-- C6 (amended): the demo creates a surface effect on `object0` and
`object3`, a viscosity effect on `object1` and `object3`, a stick-slip
effect on `object2`, and a vibration effect on `object3`; the
device-limit parameterization covers exactly `object1`'s viscosity
(0.9·maxDamping), `object2`'s stick-slip force and stiffness
(0.2·maxForce, 0.6·maxStiffness) and `object3`'s vibration amplitude
(0.5·maxForce), while `object0` receives no haptic material parameter. -/
theorem c6_amended_effects_and_parameters :
    ((SceneObj.object0, EffectKind.surface) ∈ effectCreations ∧
     (SceneObj.object3, EffectKind.surface) ∈ effectCreations ∧
     (SceneObj.object1, EffectKind.viscosity) ∈ effectCreations ∧
     (SceneObj.object3, EffectKind.viscosity) ∈ effectCreations ∧
     (SceneObj.object2, EffectKind.stickSlip) ∈ effectCreations ∧
     (SceneObj.object3, EffectKind.vibration) ∈ effectCreations) ∧
    (∀ a ∈ materialAssignments, usesDeviceLimit a.2.2 = true →
       a = (SceneObj.object1, MatParam.viscosity, ParamValue.mulMaxDamping (9 / 10)) ∨
       a = (SceneObj.object2, MatParam.stickSlipForceMax, ParamValue.mulMaxForce (1 / 5)) ∨
       a = (SceneObj.object2, MatParam.stickSlipStiffness, ParamValue.mulMaxStiffness (3 / 5)) ∨
       a = (SceneObj.object3, MatParam.vibrationAmplitude, ParamValue.mulMaxForce (1 / 2))) ∧
    (∀ a ∈ materialAssignments, a.1 ≠ SceneObj.object0) := by
  refine ⟨⟨?_, ?_, ?_, ?_, ?_, ?_⟩, ?_, ?_⟩
  · simp [effectCreations]
  · simp [effectCreations]
  · simp [effectCreations]
  · simp [effectCreations]
  · simp [effectCreations]
  · simp [effectCreations]
  · intro a ha h
    fin_cases ha <;> simp_all [usesDeviceLimit]
  · intro a ha
    fin_cases ha <;> simp_all

/-- C6 (witness): the amended theorem applied to the concrete viscosity
assignment of `object1`. -/
theorem c6_witness_object1_viscosity :
    (SceneObj.object1, MatParam.viscosity, ParamValue.mulMaxDamping (9 / 10)) =
        (SceneObj.object1, MatParam.viscosity, ParamValue.mulMaxDamping (9 / 10)) ∨
      (SceneObj.object1, MatParam.viscosity, ParamValue.mulMaxDamping (9 / 10)) =
        (SceneObj.object2, MatParam.stickSlipForceMax, ParamValue.mulMaxForce (1 / 5)) ∨
      (SceneObj.object1, MatParam.viscosity, ParamValue.mulMaxDamping (9 / 10)) =
        (SceneObj.object2, MatParam.stickSlipStiffness, ParamValue.mulMaxStiffness (3 / 5)) ∨
      (SceneObj.object1, MatParam.viscosity, ParamValue.mulMaxDamping (9 / 10)) =
        (SceneObj.object3, MatParam.vibrationAmplitude, ParamValue.mulMaxForce (1 / 2)) :=
  c6_amended_effects_and_parameters.2.1 _ (by simp [materialAssignments]) rfl


set_option maxRecDepth 8000 in
lemma cInv_hstep : ∀ s : CState, cInv s = true → cInv (hstep s) = true := by
  decide

set_option maxRecDepth 8000 in
lemma cInv_mstep : ∀ s : CState, cInv s = true → cInv (mstep s) = true := by
  decide

lemma cInv_crun : ∀ (sched : List Bool) (s : CState),
    cInv s = true → cInv (crun s sched) = true := by
  intro sched
  induction sched with
  | nil => intro s h; simpa [crun] using h
  | cons c cs ih =>
    intro s h
    simp only [crun]
    cases c with
    | true => exact ih _ (cInv_hstep s h)
    | false => exact ih _ (cInv_mstep s h)

set_option maxRecDepth 8000 in
lemma cInv_consequences : ∀ s : CState, cInv s = true →
    s.bodyAfterStop = false ∧ (s.toolStopped = true → s.hpc = HPC.done) := by
  decide

set_option maxRecDepth 8000 in
/-- C7 (counterexample): under the interleaving semantics the claim
fails as stated, because `close` can run to completion before the
haptics thread executes its first statement: the globals start as
`simulationRunning = false`, `simulationFinished = true`, so `close`
skips its wait loop and stops the tool, and the haptics thread then
enters its loop and executes its body with the tool already stopped.
The schedule below first runs `close` to the tool stop, then lets the
haptics thread run. -/
theorem c7_counterexample_startup_race :
    (crun cInit [false, false, false, true, true, true, true]).toolStopped = true ∧
    (crun cInit [false, false, false, true, true, true, true]).bodyAfterStop = true := by
  decide

/-- C7 (amended): provided `close` begins only after the haptics thread
has completed its prologue (set `simulationRunning` to true and
`simulationFinished` to false and reached its loop), every interleaving
keeps the safety property: no loop-body step ever executes after
`tool->stop()`, and whenever the tool has been stopped the haptics
thread has already exited its loop and set `simulationFinished`. -/
theorem c7_amended_shutdown_safety (sched : List Bool) (s0 : CState)
    (hpc0 : s0.hpc = HPC.guard ∨ s0.hpc = HPC.body)
    (hmpc0 : s0.mpc = MPC.clearRun)
    (hrun0 : s0.running = true)
    (hfin0 : s0.finished = false)
    (hstop0 : s0.toolStopped = false)
    (hbody0 : s0.bodyAfterStop = false) :
    (crun s0 sched).bodyAfterStop = false ∧
    ((crun s0 sched).toolStopped = true → (crun s0 sched).hpc = HPC.done) := by
  have h0 : cInv s0 = true := by
    obtain ⟨r, f, h, m, t, b⟩ := s0
    simp only at hpc0 hmpc0 hrun0 hfin0 hstop0 hbody0
    subst hmpc0 hrun0 hfin0 hstop0 hbody0
    rcases hpc0 with h1 | h1 <;> subst h1 <;> decide
  exact cInv_consequences _ (cInv_crun sched s0 h0)

/-- C7 (witness): the amended theorem applied to the loop-head state and
a concrete normal-shutdown schedule: the main thread clears
`simulationRunning`, the haptics thread re-tests its guard, sets
`simulationFinished` and exits, and the main thread then passes its wait
loop and stops the tool; no body step runs after the stop. -/
theorem c7_witness_normal_shutdown :
    (crun ⟨true, false, HPC.guard, MPC.clearRun, false, false⟩
        [false, true, true, false, false, false]).bodyAfterStop = false ∧
    ((crun ⟨true, false, HPC.guard, MPC.clearRun, false, false⟩
        [false, true, true, false, false, false]).toolStopped = true →
      (crun ⟨true, false, HPC.guard, MPC.clearRun, false, false⟩
        [false, true, true, false, false, false]).hpc = HPC.done) :=
  c7_amended_shutdown_safety [false, true, true, false, false, false]
    ⟨true, false, HPC.guard, MPC.clearRun, false, false⟩
    (Or.inl rfl) rfl rfl rfl rfl rfl

/-- C10: a key event whose action is neither a press nor a repeat leaves
the program state (fullscreen flag, mirroring flag, camera mirror
setting, window mode, window-should-close flag) unchanged; a press of
Escape or Q sets the window-should-close flag, after which the main
graphic loop renders no further frame. -/
theorem c10_key_callback (k : Key) (a : KeyAction) (s : AppState) :
    (a ≠ KeyAction.press → a ≠ KeyAction.keyRepeat → onKeyCallback k a s = s) ∧
    ((k = Key.escape ∨ k = Key.q) →
      (onKeyCallback k KeyAction.press s).shouldClose = true ∧
      ∀ n : Nat, graphicsLoopFrames n (onKeyCallback k KeyAction.press s) = 0) := by
  constructor
  · intro h1 h2
    simp [onKeyCallback, h1, h2]
  · intro hk
    have hc : (onKeyCallback k KeyAction.press s).shouldClose = true := by
      rcases hk with hk | hk <;> subst hk <;> simp [onKeyCallback]
    refine ⟨hc, ?_⟩
    intro n
    cases n with
    | zero => rfl
    | succ m => simp [graphicsLoopFrames, hc]

/-- C10 (witness): the callback theorem applied to a concrete release
event and to a concrete Escape press. -/
theorem c10_witness :
    onKeyCallback Key.f KeyAction.release ⟨false, false, false, false, false⟩ =
      ⟨false, false, false, false, false⟩ ∧
    (onKeyCallback Key.escape KeyAction.press
      ⟨false, false, false, false, false⟩).shouldClose = true ∧
    graphicsLoopFrames 5 (onKeyCallback Key.escape KeyAction.press
      ⟨false, false, false, false, false⟩) = 0 := by
  refine ⟨?_, ?_, ?_⟩
  · exact (c10_key_callback Key.f KeyAction.release _).1 (by decide) (by decide)
  · exact ((c10_key_callback Key.escape KeyAction.press _).2 (Or.inl rfl)).1
  · exact ((c10_key_callback Key.escape KeyAction.press _).2 (Or.inl rfl)).2 5

lemma sqrt_of_sq {a b : ℝ} (hb : 0 ≤ b) (h : a = b ^ 2) : Real.sqrt a = b := by
  rw [h, Real.sqrt_sq hb]

/-- C1: the haptics loop sends exactly one force per iteration; an
iteration starts from the engine interaction force and runs the
object0, object3 and object2 stages in that order; and each stage
leaves the force unchanged whenever the distance from the tool device
position to the object's global position is not below that stage's
radius-sum threshold. -/
theorem c1_iteration_structure :
    (∀ (inps : List HapticInput) (s : SimState),
      ((hapticsRun inps s).2).length = inps.length) ∧
    (∀ (inp : HapticInput) (s : SimState),
      hapticsIteration inp s =
        (⟨(object3Stage inp (object0Stage inp inp.engineForce) s.oscTime3 s.inLoop).2.1,
          (object3Stage inp (object0Stage inp inp.engineForce) s.oscTime3 s.inLoop).2.2,
          (object2Stage inp
            (object3Stage inp (object0Stage inp inp.engineForce) s.oscTime3 s.inLoop).1
            s.object2Pos s.object2Vel).2.1,
          (object2Stage inp
            (object3Stage inp (object0Stage inp inp.engineForce) s.oscTime3 s.inLoop).1
            s.object2Pos s.object2Vel).2.2⟩,
         (object2Stage inp
            (object3Stage inp (object0Stage inp inp.engineForce) s.oscTime3 s.inLoop).1
            s.object2Pos s.object2Vel).1)) ∧
    (∀ (inp : HapticInput) (f : Vec3),
      ¬ toolDist inp object0Pos < 0.05 + object0Radius → object0Stage inp f = f) ∧
    (∀ (inp : HapticInput) (f : Vec3) (t : ℝ) (il : Bool),
      ¬ toolDist inp object3Pos <
          (if il then 0.05 + object3Radius * 2 else 0.05 + object3Radius) →
        (object3Stage inp f t il).1 = f) ∧
    (∀ (inp : HapticInput) (f p v : Vec3),
      ¬ toolDist inp p < 0.03 + object2Radius → (object2Stage inp f p v).1 = f) := by
  refine ⟨?_, ?_, ?_, ?_, ?_⟩
  · intro inps
    induction inps with
    | nil => intro s; rfl
    | cons i rest ih =>
      intro s
      simp only [hapticsRun, List.length_cons]
      rw [ih]
  · intro inp s
    rfl
  · intro inp f h
    simp only [object0Stage, if_neg h]
  · intro inp f t il h
    simp only [object3Stage, if_neg h]
  · intro inp f p v h
    simp only [object2Stage, object2Update, if_neg h]

/-- C1 (witness): a tool position far from object0 leaves the force
unchanged through the object0 stage. -/
theorem c1_witness_far_tool :
    ¬ toolDist ⟨⟨9, -1.2, 0⟩, vzero, vzero⟩ object0Pos < 0.05 + object0Radius ∧
    object0Stage ⟨⟨9, -1.2, 0⟩, vzero, vzero⟩ ⟨1, 2, 3⟩ = ⟨1, 2, 3⟩ := by
  have h : toolDist ⟨⟨9, -1.2, 0⟩, vzero, vzero⟩ object0Pos = 9 := by
    simp only [toolDist, vlength, vsub, object0Pos]
    exact sqrt_of_sq (by norm_num) (by norm_num)
  have hn : ¬ toolDist ⟨⟨9, -1.2, 0⟩, vzero, vzero⟩ object0Pos < 0.05 + object0Radius := by
    rw [h, object0Radius]; norm_num
  exact ⟨hn, c1_iteration_structure.2.2.1 _ _ hn⟩

/-- C2 (code evaluation at the failing input): with the tool at
object0's center, zero engine force and tool velocity (1,0,0), the
object0 stage produces the force (0.4, 0, 0) — the blended term is
`+0.1 · velocity` (then scaled by 4), a force whose dot product with the
velocity is positive, i.e. it points along the velocity instead of
opposing it as a damping force would. -/
theorem c2_code_bug_force_along_velocity :
    object0Stage ⟨⟨0, -1.2, 0⟩, ⟨1, 0, 0⟩, vzero⟩ vzero = ⟨0.4, 0, 0⟩ ∧
    0 < vdot (object0Stage ⟨⟨0, -1.2, 0⟩, ⟨1, 0, 0⟩, vzero⟩ vzero) ⟨1, 0, 0⟩ := by
  have hd : toolDist ⟨⟨0, -1.2, 0⟩, ⟨1, 0, 0⟩, vzero⟩ object0Pos < 0.05 + object0Radius := by
    have h0 : toolDist ⟨⟨0, -1.2, 0⟩, ⟨1, 0, 0⟩, vzero⟩ object0Pos = 0 := by
      simp only [toolDist, vlength, vsub, object0Pos]
      rw [show ((0:ℝ) - 0) ^ 2 + (-1.2 - -1.2) ^ 2 + ((0:ℝ) - 0) ^ 2 = 0 by norm_num]
      exact Real.sqrt_zero
    rw [h0, object0Radius]; norm_num
  have he : object0Stage ⟨⟨0, -1.2, 0⟩, ⟨1, 0, 0⟩, vzero⟩ vzero = ⟨0.4, 0, 0⟩ := by
    simp only [object0Stage]
    rw [if_pos hd]
    simp only [vadd, vsmul, vzero]
    rw [Vec3.mk.injEq]
    norm_num
  refine ⟨he, ?_⟩
  rw [he]
  simp only [vdot]
  norm_num

/-- C4: within distance `0.03 + object2Radius` of object2 the velocity
gains the explicit-Euler increment `((-f - 0·v)/0.5)·0.001` and the
outgoing force is `10·f`; outside, force and velocity are untouched; in
either case the position then advances by the (possibly updated)
velocity times `0.001` and the velocity is scaled by `0.999`; the full
object2 stage is this update followed by the reset check. -/
theorem c4_object2_spring_mass (inp : HapticInput) (f p v : Vec3) :
    (toolDist inp p < 0.03 + object2Radius →
      object2Update inp f p v =
        (vsmul 10 f,
         vadd p (vsmul 0.001
           (vadd v (vsmul 0.001 (vdiv (vsub (vneg f) (vsmul 0 v)) 0.5)))),
         vsmul 0.999
           (vadd v (vsmul 0.001 (vdiv (vsub (vneg f) (vsmul 0 v)) 0.5))))) ∧
    (¬ toolDist inp p < 0.03 + object2Radius →
      object2Update inp f p v = (f, vadd p (vsmul 0.001 v), vsmul 0.999 v)) ∧
    (object2Stage inp f p v =
      ((object2Update inp f p v).1,
       (object2Clamp (object2Update inp f p v).2.1 (object2Update inp f p v).2.2).1,
       (object2Clamp (object2Update inp f p v).2.1 (object2Update inp f p v).2.2).2)) := by
  refine ⟨?_, ?_, ?_⟩
  · intro h
    simp only [object2Update]
    rw [if_pos h, if_pos h]
    simp only [timeStep, object2Damping, object2Mass]
  · intro h
    simp only [object2Update]
    rw [if_neg h, if_neg h]
    simp only [timeStep]
  · rfl

/-- C4 (witness): the Euler branch evaluated with the tool at object2's
position. -/
theorem c4_witness_euler_branch :
    toolDist ⟨⟨0, 1, 0⟩, vzero, vzero⟩ ⟨0, 1, 0⟩ < 0.03 + object2Radius ∧
    object2Update ⟨⟨0, 1, 0⟩, vzero, vzero⟩ ⟨0, 0, 1⟩ ⟨0, 1, 0⟩ vzero =
      (vsmul 10 ⟨0, 0, 1⟩,
       vadd ⟨0, 1, 0⟩ (vsmul 0.001
         (vadd vzero (vsmul 0.001 (vdiv (vsub (vneg ⟨0, 0, 1⟩) (vsmul 0 vzero)) 0.5)))),
       vsmul 0.999
         (vadd vzero (vsmul 0.001 (vdiv (vsub (vneg ⟨0, 0, 1⟩) (vsmul 0 vzero)) 0.5)))) := by
  have hd : toolDist ⟨⟨0, 1, 0⟩, vzero, vzero⟩ (⟨0, 1, 0⟩ : Vec3) < 0.03 + object2Radius := by
    have h0 : toolDist ⟨⟨0, 1, 0⟩, vzero, vzero⟩ (⟨0, 1, 0⟩ : Vec3) = 0 := by
      simp only [toolDist, vlength, vsub]
      rw [show ((0:ℝ) - 0) ^ 2 + ((1:ℝ) - 1) ^ 2 + ((0:ℝ) - 0) ^ 2 = 0 by norm_num]
      exact Real.sqrt_zero
    rw [h0, object2Radius]; norm_num
  exact ⟨hd, (c4_object2_spring_mass _ _ _ _).1 hd⟩

/-- C8: the object3 stage's proximity threshold has hysteresis: when
`inLoop` is set, the behavior switches at `0.05 + object3Radius * 2`,
otherwise at `0.05 + object3Radius`, and the first threshold is strictly
larger — once the tool has entered, it must retreat beyond the entry
distance before the oscillation stops and the timer resets; inside the
applicable threshold the timer advances and `inLoop` is set, outside it
the timer resets to 0 and `inLoop` is cleared. -/
theorem c8_object3_hysteresis (inp : HapticInput) (f : Vec3) (t : ℝ) :
    (0.05 + object3Radius < 0.05 + object3Radius * 2) ∧
    (toolDist inp object3Pos < 0.05 + object3Radius * 2 →
      (object3Stage inp f t true).2.1 = t + timeStep ∧
      (object3Stage inp f t true).2.2 = true) ∧
    (¬ toolDist inp object3Pos < 0.05 + object3Radius * 2 →
      object3Stage inp f t true = (f, 0, false)) ∧
    (toolDist inp object3Pos < 0.05 + object3Radius →
      (object3Stage inp f t false).2.1 = t + timeStep ∧
      (object3Stage inp f t false).2.2 = true) ∧
    (¬ toolDist inp object3Pos < 0.05 + object3Radius →
      object3Stage inp f t false = (f, 0, false)) := by
  refine ⟨by rw [object3Radius]; norm_num, ?_, ?_, ?_, ?_⟩
  · intro h
    simp only [object3Stage, if_true]
    rw [if_pos h]
    exact ⟨rfl, rfl⟩
  · intro h
    simp only [object3Stage, if_true]
    rw [if_neg h]
  · intro h
    simp only [object3Stage]
    rw [if_neg (by decide : ¬ ((false : Bool) = true))]
    rw [if_pos h]
    exact ⟨rfl, rfl⟩
  · intro h
    simp only [object3Stage]
    rw [if_neg (by decide : ¬ ((false : Bool) = true))]
    rw [if_neg h]

/-- C8 (witness): at distance 0.8 from object3 — between the entry
threshold 0.55 and the continuation threshold 1.05 — the stage keeps
oscillating when `inLoop` is set but resets when it is not. -/
theorem c8_witness_hysteresis_band :
    (object3Stage ⟨⟨0.8, 0, 0⟩, vzero, vzero⟩ vzero 0 true).2.1 = 0 + timeStep ∧
    object3Stage ⟨⟨0.8, 0, 0⟩, vzero, vzero⟩ vzero 0 false = (vzero, 0, false) := by
  have hd : toolDist ⟨⟨0.8, 0, 0⟩, vzero, vzero⟩ object3Pos = 0.8 := by
    simp only [toolDist, vlength, vsub, object3Pos]
    exact sqrt_of_sq (by norm_num) (by norm_num)
  have h1 : toolDist ⟨⟨0.8, 0, 0⟩, vzero, vzero⟩ object3Pos < 0.05 + object3Radius * 2 := by
    rw [hd, object3Radius]; norm_num
  have h2 : ¬ toolDist ⟨⟨0.8, 0, 0⟩, vzero, vzero⟩ object3Pos < 0.05 + object3Radius := by
    rw [hd, object3Radius]; norm_num
  exact ⟨((c8_object3_hysteresis _ _ _).2.1 h1).1, (c8_object3_hysteresis _ _ _).2.2.2.2 h2⟩

lemma object2Clamp_bounded (p v : Vec3) :
    vlength (vsub (object2Clamp p v).1 object2StartPos) ≤ 1.0 := by
  unfold object2Clamp
  split
  · simp only [vsub, vlength, object2StartPos]
    rw [show ((0:ℝ) - 0) ^ 2 + ((1:ℝ) - 1) ^ 2 + ((0:ℝ) - 0) ^ 2 = 0 by norm_num,
      Real.sqrt_zero]
    norm_num
  · rename_i h
    exact le_of_not_lt h

/-- C9: after the object2 stage of any iteration, object2's local
position lies within distance 1.0 of its start position (0, 1, 0); and
whenever the position update has moved it farther than 1.0 from the
start, the stage's reset check puts it back at the start with zero
velocity. -/
theorem c9_object2_position_bounded (inp : HapticInput) (f p v : Vec3) :
    vlength (vsub (object2Stage inp f p v).2.1 object2StartPos) ≤ 1.0 ∧
    (∀ p' v' : Vec3, vlength (vsub p' object2StartPos) > 1.0 →
      object2Clamp p' v' = (object2StartPos, vzero)) := by
  constructor
  · exact object2Clamp_bounded _ _
  · intro p' v' h
    unfold object2Clamp
    rw [if_pos h]

/-- C9 (witness): a position at distance 2 from the start is reset to
the start with zero velocity. -/
theorem c9_witness_reset :
    vlength (vsub ⟨0, 3, 0⟩ object2StartPos) > 1.0 ∧
    object2Clamp ⟨0, 3, 0⟩ vzero = (object2StartPos, vzero) := by
  have h : vlength (vsub (⟨0, 3, 0⟩ : Vec3) object2StartPos) = 2 := by
    simp only [vlength, vsub, object2StartPos]
    exact sqrt_of_sq (by norm_num) (by norm_num)
  have h1 : vlength (vsub (⟨0, 3, 0⟩ : Vec3) object2StartPos) > 1.0 := by
    rw [h]; norm_num
  exact ⟨h1, (c9_object2_position_bounded ⟨vzero, vzero, vzero⟩ vzero vzero vzero).2 _ _ h1⟩

lemma object3_dist_origin_zero :
    toolDist ⟨⟨0, 0, 0⟩, vzero, vzero⟩ object3Pos = 0 := by
  simp only [toolDist, vlength, vsub, object3Pos]
  rw [show ((0:ℝ) - 0) ^ 2 + ((0:ℝ) - 0) ^ 2 + ((0:ℝ) - 0) ^ 2 = 0 by norm_num]
  exact Real.sqrt_zero

/-- C3 (counterexample): the object3 oscillation is computed with the
literal 3.14159, not with π: at the first in-region iteration (tool at
object3's center, timer 0, zero incoming force) the x-component of the
stage's force differs from the value the claim's formula with exact π
gives, because cos is strictly decreasing on [0, π] and
2·3.14159·6·0.001 < 2·π·6·0.001. -/
theorem c3_counterexample_exact_pi :
    (object3Stage ⟨⟨0, 0, 0⟩, vzero, vzero⟩ vzero 0 false).1.x ≠
      -(6 * Real.cos (2 * Real.pi * 6 * (0 + 0.001))) := by
  have hd : toolDist ⟨⟨0, 0, 0⟩, vzero, vzero⟩ object3Pos < 0.05 + object3Radius := by
    rw [object3_dist_origin_zero, object3Radius]; norm_num
  simp only [object3Stage]
  rw [if_neg (by decide : ¬ ((false : Bool) = true))]
  rw [if_pos hd]
  simp only [vadd, vzero, oscAmp, piApprox, oscFreq, timeStep]
  have ha : (0:ℝ) ≤ 2 * 3.14159 * 6 * (0 + 0.001) := by norm_num
  have hb : 2 * Real.pi * 6 * (0 + 0.001) ≤ Real.pi := by
    linarith [Real.pi_pos]
  have hab : 2 * (3.14159:ℝ) * 6 * (0 + 0.001) < 2 * Real.pi * 6 * (0 + 0.001) := by
    linarith [Real.pi_gt_d6]
  have hcos := Real.cos_lt_cos_of_nonneg_of_le_pi ha hb hab
  intro heq
  linarith [hcos]

/-- C3 (amended): in the object3 stage, within the applicable proximity
threshold the timer advances by 0.001 and the vector
`(-A·cos(2·c·f·t), A·sin(2·c·f·t), A·cos(2·c·f·t))` — with amplitude
A = 6, frequency f = 6, the advanced timer t, and c = 3.14159, the
code's approximation of π — is added to the force; outside the
threshold the timer resets to 0 and no oscillatory force is added. -/
theorem c3_amended_oscillation (inp : HapticInput) (f : Vec3) (t : ℝ) (il : Bool) :
    (toolDist inp object3Pos <
        (if il then 0.05 + object3Radius * 2 else 0.05 + object3Radius) →
      object3Stage inp f t il =
        (vadd f ⟨-(6 * Real.cos (2 * 3.14159 * 6 * (t + 0.001))),
                 6 * Real.sin (2 * 3.14159 * 6 * (t + 0.001)),
                 6 * Real.cos (2 * 3.14159 * 6 * (t + 0.001))⟩,
         t + 0.001, true)) ∧
    (¬ toolDist inp object3Pos <
        (if il then 0.05 + object3Radius * 2 else 0.05 + object3Radius) →
      object3Stage inp f t il = (f, 0, false)) := by
  constructor
  · intro h
    simp only [object3Stage]
    rw [if_pos h]
    simp only [oscAmp, piApprox, oscFreq, timeStep]
  · intro h
    simp only [object3Stage]
    rw [if_neg h]

/-- C3 (witness): the amended theorem evaluated with the tool at
object3's center, timer 0, `inLoop` clear. -/
theorem c3_witness_inside_region :
    toolDist ⟨⟨0, 0, 0⟩, vzero, vzero⟩ object3Pos <
      (if (false : Bool) then 0.05 + object3Radius * 2 else 0.05 + object3Radius) ∧
    object3Stage ⟨⟨0, 0, 0⟩, vzero, vzero⟩ vzero 0 false =
      (vadd vzero ⟨-(6 * Real.cos (2 * 3.14159 * 6 * (0 + 0.001))),
                   6 * Real.sin (2 * 3.14159 * 6 * (0 + 0.001)),
                   6 * Real.cos (2 * 3.14159 * 6 * (0 + 0.001))⟩,
       0 + 0.001, true) := by
  have hd : toolDist ⟨⟨0, 0, 0⟩, vzero, vzero⟩ object3Pos <
      (if (false : Bool) then 0.05 + object3Radius * 2 else 0.05 + object3Radius) := by
    rw [object3_dist_origin_zero, if_neg (by decide : ¬ ((false : Bool) = true)),
      object3Radius]
    norm_num
  exact ⟨hd, (c3_amended_oscillation _ _ _ _).1 hd⟩
